import Mathlib

/-!
# The Gaussian-like initial state example of the Trotter-Suzuki solver

A shallow embedding of `src/examples/gaussian-like_initial_state.cpp`.

* `gauss_state` is the initial-state function of the example, read over the real and
  complex numbers (`double` as `ℝ`, `complex<double>` as `ℂ`).
* `main` is the driver, embedded as the trace of calls it makes into the engine
  (`Lattice`, `State`, `Hamiltonian`, `Solver`, `stamp`), the C library and the standard
  output.  Its control flow reads nothing back from the engine except the MPI placement of
  the process and the status returned by `mkdir`; these are the fields of `Env`.
* The engine itself (`trottersuzuki.h` and its implementation) is not part of the example
  source.  `Solver.evolve` is modelled from the specification of the engine, over an
  abstract wavefunction type and an abstract kernel.
-/

set_option linter.constructorNameAsVariable false

namespace TrotterSuzuki

/-! ## Compile-time constants (lines 33-36) -/

/-- The C macro `ITERATIONS`. -/
def ITERATIONS : Int := 10

/-- The C macro `DIM`. -/
def DIM : Int := 640

/-- The C macro `KERNEL_TYPE`. -/
def KERNEL_TYPE : String := "cpu"

/-- The C macro `SNAPSHOTS`. -/
def SNAPSHOTS : Int := 10

/-- Permission bits of `<sys/stat.h>`: read, write, execute for the owner. -/
def S_IRWXU : Nat := 0o700

/-- Permission bits of `<sys/stat.h>`: read, write, execute for the group. -/
def S_IRWXG : Nat := 0o070

/-- Permission bit of `<sys/stat.h>`: read for others. -/
def S_IROTH : Nat := 0o004

/-- Permission bit of `<sys/stat.h>`: execute for others. -/
def S_IXOTH : Nat := 0o001

/-! ## The initial state (lines 38-42) -/

/-- The function `pow(double, double)` of `<cmath>`, read over the reals. -/
noncomputable def pow (base exponent : ℝ) : ℝ := base ^ exponent

/-- The function `gauss_state` of the example (lines 38-42), read over the reals:
`complex<double>(re, im)` is the complex number with these two parts and `exp` on a
`complex<double>` is the complex exponential. -/
noncomputable def gauss_state (x y : ℝ) : ℂ :=
  let s : ℝ := 64.0
  (⟨Real.exp (-(pow (x - 180.0) 2.0 + pow (y - 300.0) 2.0) / (2.0 * pow s 2.0)), 0.0⟩ : ℂ)
    * Complex.exp ⟨0.0, 0.4 * (x + y - 480.0)⟩

/-- The initial state as the header comment (line 23) and the banner printed by `main`
(line 74) document it: `exp(-((x - 180)² + (y - 300)²) / 2s²) * exp(0.4j * (x + y - 480.))`
with `s = 64`, written directly over the complex numbers. -/
noncomputable def documented_state (x y : ℝ) : ℂ :=
  Complex.exp (-(((x : ℂ) - 180) ^ 2 + ((y : ℂ) - 300) ^ 2) / (2 * 64 ^ 2))
    * Complex.exp (0.4 * Complex.I * ((x : ℂ) + (y : ℂ) - 480))

/-- The one-dimensional factor of the separable form of the initial state:
`g(u) = exp(-u² / 8192) * exp(0.4 i u)`, a Gaussian envelope carrying the wave number
`0.4`. -/
noncomputable def g (u : ℝ) : ℂ :=
  Complex.exp (-((u : ℂ) ^ 2) / 8192) * Complex.exp (0.4 * Complex.I * (u : ℂ))

/-! ## The driver (lines 44-106) -/

/-- The four objects `main` allocates, named by the local variable that holds them.  Each
variable is assigned exactly once, so the variable identifies the object. -/
inductive Obj
  | grid
  | state
  | hamiltonian
  | solver
  deriving DecidableEq, Repr

/-- The functions `main` passes by name to the engine. -/
inductive Fn
  | gauss_state
  | const_potential
  deriving DecidableEq, Repr

/-- The calls `main` makes, with the arguments as written at the call site.  `int`
arguments are integers; `double` arguments are exact rationals (`0.08` is `2/25`). -/
inductive Call
  | MPI_Init
  | new_Lattice (dim : Int) (length_x length_y : ℚ) (periods : Int × Int) (omega : ℚ)
  | new_State (grid : Obj)
  | init_state (self : Obj) (f : Fn)
  | new_Hamiltonian (grid : Obj) (mass coupling_const : ℚ) (arg4 arg5 : Int)
      (rot_coord_x rot_coord_y : Int) (omega : ℚ)
  | initialize_potential (self : Obj) (f : Fn)
  | new_Solver (grid state hamiltonian : Obj) (delta_t : ℚ) (kernel_type : String)
  | cout (text : String)
  | mkdir (path : String) (mode : Nat)
  | evolve (self : Obj) (iterations : Int) (imag_time : Bool)
  | stamp (grid state : Obj) (tag iterations count_snap : Int) (dirname : String)
  | delete (o : Obj)
  | MPI_Finalize
  deriving DecidableEq, Repr

/-- What `main` reads from its surroundings: whether it was compiled with `HAVE_MPI`, the
placement of this process that the `Lattice` reports (`mpi_rank`, `mpi_coords`,
`mpi_procs`), and the status `mkdir` returns. -/
structure Env where
  HAVE_MPI : Bool
  mpi_rank : Int
  mpi_coords : Int × Int
  mpi_procs : Int
  mkdir_status : Int

/-- The output directory set-up of `main` (lines 77-90): the calls made and the final value
of `dirnames`, from the status `mkdir` returns. -/
def output_directory (status : Int) : List Call × String :=
  if SNAPSHOTS ≠ 0 then
    let dirnames : String :=
      "D" ++ toString DIM ++ "_I" ++ toString ITERATIONS ++ "_S" ++ toString SNAPSHOTS ++ ""
    let calls : List Call := [Call.mkdir dirnames (S_IRWXU ||| S_IRWXG ||| S_IROTH ||| S_IXOTH)]
    if status ≠ 0 ∧ status ≠ -1 then (calls, ".") else (calls, dirnames)
  else
    ([], ".")

/-- The snapshot loop of `main` (lines 91-94), entered at `count_snap`:
`for (...; count_snap < SNAPSHOTS; count_snap++) { evolve; stamp }`. -/
def snapshot_loop (imag_time : Bool) (dirnames : String) (count_snap : Int) : List Call :=
  if count_snap < SNAPSHOTS then
    Call.evolve Obj.solver ITERATIONS imag_time
      :: Call.stamp Obj.grid Obj.state 0 ITERATIONS count_snap dirnames
      :: snapshot_loop imag_time dirnames (count_snap + 1)
  else
    []
termination_by (SNAPSHOTS - count_snap).toNat
decreasing_by
  simp only [SNAPSHOTS] at *
  omega

/-- The function `main` (lines 44-106) as the trace of the calls it makes, in order. -/
def main (env : Env) : List Call :=
  let periods : Int × Int := (0, 0)
  let coupling_const : ℚ := 0
  let length_x : ℚ := DIM
  let length_y : ℚ := DIM
  let delta_t : ℚ := 0.08
  let rot_coord_x : Int := 320
  let rot_coord_y : Int := 320
  let omega : ℚ := 0
  let verbose : Bool := true
  let imag_time : Bool := false
  let particle_mass : ℚ := 1
  let out := output_directory env.mkdir_status
  (if env.HAVE_MPI then [Call.MPI_Init] else [])
  ++ [Call.new_Lattice DIM length_x length_y periods omega,
      Call.new_State Obj.grid,
      Call.init_state Obj.state Fn.gauss_state,
      Call.new_Hamiltonian Obj.grid particle_mass coupling_const 0 0
        rot_coord_x rot_coord_y omega,
      Call.initialize_potential Obj.hamiltonian Fn.const_potential,
      Call.new_Solver Obj.grid Obj.state Obj.hamiltonian delta_t KERNEL_TYPE]
  ++ (if env.mpi_rank = 0 then
        [Call.cout "\n* This source provides an example of the trotter-suzuki program.\n",
         Call.cout "* It calculates the time-evolution of a particle in a box, where the initial\n",
         Call.cout "* state is the following:\n",
         Call.cout "* \texp(-( (x - 180)² + (y - 300)² )/ 2s²)* exp(0.4j * (x + y - 480.))\n\n"]
      else [])
  ++ out.1
  ++ snapshot_loop imag_time out.2 0
  ++ (if env.mpi_coords.1 = 0 ∧ env.mpi_coords.2 = 0 ∧ verbose = true then
        [Call.cout ("TROTTER " ++ toString DIM ++ "x" ++ toString DIM ++ " kernel:"
          ++ KERNEL_TYPE ++ " np:" ++ toString env.mpi_procs ++ "\n")]
      else [])
  ++ [Call.delete Obj.solver, Call.delete Obj.hamiltonian, Call.delete Obj.state,
      Call.delete Obj.grid]
  ++ (if env.HAVE_MPI then [Call.MPI_Finalize] else [])

/-! ### Projections of the trace -/

/-- The calls of the snapshot loop: `Solver::evolve` and `stamp`. -/
def Call.is_evolve_or_stamp : Call → Bool
  | Call.evolve _ _ _ => true
  | Call.stamp _ _ _ _ _ _ => true
  | _ => false

/-- The calls that construct or use a `Solver`. -/
def Call.is_solver_call : Call → Bool
  | Call.new_Solver _ _ _ _ _ => true
  | Call.evolve _ _ _ => true
  | _ => false

/-- The arguments of a `Lattice` construction: grid points per side, physical lengths and
periodicity flags. -/
def Call.lattice_args : Call → Option (Int × ℚ × ℚ × (Int × Int))
  | Call.new_Lattice dim length_x length_y periods _ => some (dim, length_x, length_y, periods)
  | _ => none

/-- The arguments of a `Solver::evolve` call: receiver, iterations, imaginary-time flag. -/
def Call.evolve_args : Call → Option (Obj × Int × Bool)
  | Call.evolve self iterations imag_time => some (self, iterations, imag_time)
  | _ => none

/-- The particle mass and coupling constant of a `Hamiltonian` construction. -/
def Call.mass_and_coupling : Call → Option (ℚ × ℚ)
  | Call.new_Hamiltonian _ mass coupling_const _ _ _ _ _ => some (mass, coupling_const)
  | _ => none

/-- The rotation frequency `omega` passed to a `Lattice` or `Hamiltonian` construction. -/
def Call.omega_arg : Call → Option ℚ
  | Call.new_Lattice _ _ _ _ omega => some omega
  | Call.new_Hamiltonian _ _ _ _ _ _ _ omega => some omega
  | _ => none

/-- The output location of a `stamp` call. -/
def Call.stamp_dirname : Call → Option String
  | Call.stamp _ _ _ _ _ dirname => some dirname
  | _ => none

/-- The imaginary-time flag of a `Solver::evolve` call. -/
def Call.evolve_imag_time : Call → Option Bool
  | Call.evolve _ _ imag_time => some imag_time
  | _ => none

/-- The path of a `mkdir` call. -/
def Call.mkdir_path : Call → Option String
  | Call.mkdir path _ => some path
  | _ => none

/-! ## The engine behind `Solver::evolve` -/

/-- Modelled from the spec: the `Kernel` of the engine (`trottersuzuki.h` and its
implementation are not in the example source).  A backend applies one full Trotter-Suzuki
step to a state in place, given whether the step is in imaginary time; `normalize`
rescales the whole wavefunction by the reciprocal of its global norm.  The wavefunction
type `σ` is abstract. -/
structure Kernel (σ : Type) where
  run : σ → Bool → σ
  normalize : σ → σ

/-- Modelled from the spec: the data of a `Solver` (not in the example source): its bound
state, the time step, the running count of elapsed iterations and the mode flag of the
current `evolve` call. -/
structure Solver (σ : Type) where
  state : σ
  delta_t : ℚ
  iterations : Nat
  imag_time : Bool

/-- Modelled from the spec: one step of `Solver::evolve` (not in the example source): the
kernel is applied once and, if `imaginary_time` is true, the wavefunction is rescaled by the
reciprocal of its global norm. -/
def Solver.step {σ : Type} (K : Kernel σ) (imaginary_time : Bool) (ψ : σ) : σ :=
  if imaginary_time then K.normalize (K.run ψ imaginary_time) else K.run ψ imaginary_time

/-- Modelled from the spec: `Solver::evolve(iterations, imaginary_time)` (not in the
example source) applies the kernel `iterations` times in sequence to its bound state and
counts the elapsed iterations. -/
def Solver.evolve {σ : Type} (K : Kernel σ) (S : Solver σ) :
    Nat → Bool → Solver σ
  | 0, imaginary_time => { S with imag_time := imaginary_time }
  | iterations + 1, imaginary_time =>
    let S' := Solver.evolve K S iterations imaginary_time
    { S' with state := Solver.step K imaginary_time S'.state, iterations := S'.iterations + 1 }

/-- Modelled from the spec: the cumulative elapsed simulated time of a `Solver` (not in
the example source), iterations times time-step. -/
def Solver.elapsed_time {σ : Type} (S : Solver σ) : ℚ :=
  (S.iterations : ℚ) * S.delta_t

/-- The engine as `main` drives it: the solver with its bound state, and what every
`stamp` call read so far (snapshot index, state, elapsed iterations of the solver). -/
structure World (σ : Type) where
  solver : Solver σ
  snapshots : List (Int × σ × Nat)

/-- The world at the start of `main`, with `ψ₀` standing for the state that `init_state`
produces. -/
def World.init {σ : Type} (ψ₀ : σ) : World σ :=
  { solver := { state := ψ₀, delta_t := 0, iterations := 0, imag_time := false },
    snapshots := [] }

/-- Modelled from the spec: the effect of one call of `main` on the engine (the engine is
not in the example source).  The `Solver` construction fixes the time step and starts the
count of elapsed iterations, `evolve` is `Solver.evolve`, the snapshot collaborator `stamp`
reads the state; the other calls do not touch the solver or its state. -/
def exec_call {σ : Type} (K : Kernel σ) (w : World σ) : Call → World σ
  | Call.new_Solver _ _ _ delta_t _ =>
    { w with solver := { w.solver with delta_t := delta_t, iterations := 0 } }
  | Call.evolve _ iterations imag_time =>
    { w with solver := Solver.evolve K w.solver iterations.toNat imag_time }
  | Call.stamp _ _ _ _ count_snap _ =>
    { w with snapshots := w.snapshots ++ [(count_snap, w.solver.state, w.solver.iterations)] }
  | _ => w

/-- The effect of a trace of calls on the world. -/
def exec {σ : Type} (K : Kernel σ) (calls : List Call) (w : World σ) : World σ :=
  calls.foldl (exec_call K) w

/-! ## The initial state: theorems -/

/-- The C call `pow(b, 2.0)` is the square of `b`, also for negative `b`. -/
theorem pow_two_eq (b : ℝ) : pow b 2.0 = b ^ 2 := by
  unfold pow
  have h : (2.0 : ℝ) = (2 : ℝ) := by norm_num
  rw [h, Real.rpow_two]

/-- The value of `gauss_state` with the constants evaluated: a real Gaussian envelope
(`2 s² = 8192`) times a unit phase factor. -/
theorem gauss_state_envelope_phase (x y : ℝ) :
    gauss_state x y
      = ((Real.exp (-((x - 180) ^ 2 + (y - 300) ^ 2) / 8192) : ℝ) : ℂ)
        * Complex.exp (((2 / 5 * (x + y - 480) : ℝ) : ℂ) * Complex.I) := by
  unfold gauss_state
  simp only [pow_two_eq]
  have e1 : (⟨Real.exp (-((x - 180.0) ^ 2 + (y - 300.0) ^ 2) / (2.0 * (64.0:ℝ) ^ 2)), 0.0⟩ : ℂ)
      = ((Real.exp (-((x - 180) ^ 2 + (y - 300) ^ 2) / 8192) : ℝ) : ℂ) := by
    apply Complex.ext
    · simp only [Complex.ofReal_re]; congr 1; norm_num
    · simp only [Complex.ofReal_im]; norm_num
  have e2 : (⟨0.0, 0.4 * (x + y - 480.0)⟩ : ℂ) = ((2 / 5 * (x + y - 480) : ℝ) : ℂ) * Complex.I := by
    apply Complex.ext
    · simp; norm_num
    · simp; norm_num
  rw [e1, e2]

/-- Claim C1.  For all real `x`, `y` the value `gauss_state x y` is the documented initial
state `exp(-((x - 180)² + (y - 300)²) / (2 s²)) * exp(0.4 i (x + y - 480))` with `s = 64`,
read over the real and complex numbers; and it depends only on its two arguments: calls
with equal arguments return equal values. -/
theorem gauss_state_eq_documented (x y : ℝ) :
    gauss_state x y = documented_state x y
    ∧ ∀ x' y' : ℝ, x' = x → y' = y → gauss_state x' y' = gauss_state x y := by
  refine ⟨?_, ?_⟩
  · rw [gauss_state_envelope_phase]
    unfold documented_state
    rw [Complex.ofReal_exp]
    congr 2
    · push_cast; norm_num
    · push_cast; ring_nf
  · intro x' y' hx hy
    rw [hx, hy]

/-- Claim C1 at the centre of the Gaussian: the value at `(180, 300)` is the documented
one, and the call with the first argument computed as `90 + 90` returns the same value. -/
theorem gauss_state_eq_documented_witness :
    gauss_state 180 300 = documented_state 180 300
    ∧ gauss_state (90 + 90) 300 = gauss_state 180 300 :=
  ⟨(gauss_state_eq_documented 180 300).1,
   (gauss_state_eq_documented 180 300).2 (90 + 90) 300 (by norm_num) rfl⟩
/-- The modulus of `gauss_state` is its Gaussian envelope. -/
theorem gauss_state_abs_eq (x y : ℝ) :
    Complex.abs (gauss_state x y) = Real.exp (-((x - 180) ^ 2 + (y - 300) ^ 2) / 8192) := by
  rw [gauss_state_envelope_phase, map_mul, Complex.abs_exp_ofReal_mul_I, mul_one,
    Complex.abs_ofReal, abs_of_pos (Real.exp_pos _)]

/-- Claim C8.  For all real `x`, `y` the modulus of `gauss_state x y` is
`exp(-((x - 180)² + (y - 300)²) / 8192)`; it is positive and at most `1`, it is `1` exactly
at `(x, y) = (180, 300)`, where the value is `1 + 0i`; and the value is never zero.  Every
value is a complex number, hence finite. -/
theorem gauss_state_modulus (x y : ℝ) :
    Complex.abs (gauss_state x y) = Real.exp (-((x - 180) ^ 2 + (y - 300) ^ 2) / 8192)
    ∧ 0 < Complex.abs (gauss_state x y)
    ∧ Complex.abs (gauss_state x y) ≤ 1
    ∧ (Complex.abs (gauss_state x y) = 1 ↔ (x = 180 ∧ y = 300))
    ∧ gauss_state 180 300 = 1
    ∧ gauss_state x y ≠ 0 := by
  have hpos : 0 < Complex.abs (gauss_state x y) := by
    rw [gauss_state_abs_eq]
    exact Real.exp_pos _
  have hsq : 0 ≤ (x - 180) ^ 2 + (y - 300) ^ 2 := by positivity
  refine ⟨gauss_state_abs_eq x y, hpos, ?_, ?_, ?_, ?_⟩
  · rw [gauss_state_abs_eq, Real.exp_le_one_iff]
    have : -((x - 180) ^ 2 + (y - 300) ^ 2) / 8192 = -(((x - 180) ^ 2 + (y - 300) ^ 2) / 8192) := by
      ring
    rw [this]
    have : 0 ≤ ((x - 180) ^ 2 + (y - 300) ^ 2) / 8192 := by positivity
    linarith
  · rw [gauss_state_abs_eq, Real.exp_eq_one_iff]
    constructor
    · intro h
      have h0 : (x - 180) ^ 2 + (y - 300) ^ 2 = 0 := by
        have := congrArg (fun t => -(t * 8192)) h
        simp only at this
        linarith [this]
      have hx : (x - 180) ^ 2 = 0 := by nlinarith [sq_nonneg (x - 180), sq_nonneg (y - 300)]
      have hy : (y - 300) ^ 2 = 0 := by nlinarith [sq_nonneg (x - 180), sq_nonneg (y - 300)]
      have hx' : x - 180 = 0 := by simpa using hx
      have hy' : y - 300 = 0 := by simpa using hy
      exact ⟨by linarith, by linarith⟩
    · rintro ⟨rfl, rfl⟩
      norm_num
  · rw [gauss_state_envelope_phase]
    norm_num
  · intro h
    rw [h, map_zero] at hpos
    exact lt_irrefl 0 hpos

/-- Claim C10.  The initial state is separable, `gauss_state x y = g (x - 180) * g (y - 300)`
with `g u = exp(-u² / 8192) * exp(0.4 i u)`, and it is a positive real number whenever
`x + y = 480`. -/
theorem gauss_state_separable (x y : ℝ) :
    gauss_state x y = g (x - 180) * g (y - 300)
    ∧ (x + y = 480 → ∃ r : ℝ, 0 < r ∧ gauss_state x y = (r : ℂ)) := by
  constructor
  · rw [gauss_state_envelope_phase, Complex.ofReal_exp]
    unfold g
    simp only [← Complex.exp_add]
    congr 1
    push_cast
    ring
  · intro h
    refine ⟨Real.exp (-((x - 180) ^ 2 + (y - 300) ^ 2) / 8192), Real.exp_pos _, ?_⟩
    rw [gauss_state_envelope_phase]
    have : x + y - 480 = 0 := by linarith
    rw [this]
    simp

/-- Claim C10 at the centre of the Gaussian, where `180 + 300 = 480`. -/
theorem gauss_state_separable_witness :
    (180 : ℝ) + 300 = 480 ∧ ∃ r : ℝ, 0 < r ∧ gauss_state 180 300 = (r : ℂ) :=
  ⟨by norm_num, (gauss_state_separable 180 300).2 (by norm_num)⟩

/-! ## The driver: theorems -/


/-- The snapshot loop entered at `count_snap = 0` makes ten passes, each one `evolve`
followed by one `stamp`, and stops. -/
theorem snapshot_loop_unfold (imag_time : Bool) (dirnames : String) :
    snapshot_loop imag_time dirnames 0
      = (List.range 10).flatMap (fun (k : Nat) =>
          [Call.evolve Obj.solver 10 imag_time,
           Call.stamp Obj.grid Obj.state 0 10 (k : Int) dirnames]) := by
  have step : ∀ c : Int, c < 10 → snapshot_loop imag_time dirnames c
      = Call.evolve Obj.solver 10 imag_time
        :: Call.stamp Obj.grid Obj.state 0 10 c dirnames
        :: snapshot_loop imag_time dirnames (c + 1) := by
    intro c hc
    rw [snapshot_loop]
    simp [SNAPSHOTS, ITERATIONS, hc]
  have stop : snapshot_loop imag_time dirnames 10 = [] := by
    rw [snapshot_loop]
    simp [SNAPSHOTS]
  rw [step 0 (by norm_num), step (0 + 1) (by norm_num), step (0 + 1 + 1) (by norm_num),
    step (0 + 1 + 1 + 1) (by norm_num), step (0 + 1 + 1 + 1 + 1) (by norm_num),
    step (0 + 1 + 1 + 1 + 1 + 1) (by norm_num), step (0 + 1 + 1 + 1 + 1 + 1 + 1) (by norm_num),
    step (0 + 1 + 1 + 1 + 1 + 1 + 1 + 1) (by norm_num),
    step (0 + 1 + 1 + 1 + 1 + 1 + 1 + 1 + 1) (by norm_num),
    step (0 + 1 + 1 + 1 + 1 + 1 + 1 + 1 + 1 + 1) (by norm_num)]
  norm_num [stop, List.range_succ, List.flatMap]

/-- The output directory set-up with the name and the mode evaluated. -/
theorem output_directory_eq (status : Int) :
    output_directory status
      = ([Call.mkdir "D640_I10_S10" 509],
         if status ≠ 0 ∧ status ≠ -1 then "." else "D640_I10_S10") := by
  have h : "D" ++ toString DIM ++ "_I" ++ toString ITERATIONS ++ "_S" ++ toString SNAPSHOTS ++ ""
      = "D640_I10_S10" := by decide
  have m : (S_IRWXU ||| S_IRWXG ||| S_IROTH ||| S_IXOTH) = 509 := by decide
  unfold output_directory
  rw [if_pos (by decide)]
  simp only [h, m]
  split_ifs <;> rfl

/-- A conditional segment of calls that the filter drops contributes nothing. -/
theorem filter_ite_nil {α : Type} (p : α → Bool) (c : Prop) [Decidable c] (l : List α)
    (h : l.filter p = []) : (if c then l else []).filter p = [] := by
  split_ifs
  · exact h
  · rfl

/-- The calls of `main` that are `evolve` or `stamp` calls are those of the snapshot
loop. -/
theorem main_filter_evolve_or_stamp (env : Env) :
    (main env).filter Call.is_evolve_or_stamp
      = snapshot_loop false (output_directory env.mkdir_status).2 0 := by
  unfold main
  simp only [List.filter_append]
  rw [filter_ite_nil _ _ _ (by rfl), filter_ite_nil _ _ _ (by rfl),
    filter_ite_nil _ _ _ (by rfl), filter_ite_nil _ _ _ (by rfl)]
  have h1 : (output_directory env.mkdir_status).1.filter Call.is_evolve_or_stamp = [] := by
    rw [output_directory_eq]; rfl
  have h2 : (snapshot_loop false (output_directory env.mkdir_status).2 0).filter
      Call.is_evolve_or_stamp = snapshot_loop false (output_directory env.mkdir_status).2 0 := by
    rw [snapshot_loop_unfold]
    simp [List.range_succ, List.flatMap, Call.is_evolve_or_stamp]
  rw [h1, h2]
  simp [Call.is_evolve_or_stamp]

/-- Claim C4.  The `evolve` and `stamp` calls of `main`, in order, are ten pairs of one
`evolve` followed by one `stamp`: the trace starts with `evolve`, the snapshot indices are
`0, 1, ..., 9`, and every `stamp` receives the same grid, state and output directory, the
tag `0` and the iteration count `10` of one segment. -/
theorem main_evolve_stamp_alternate (env : Env) :
    (main env).filter Call.is_evolve_or_stamp
      = (List.range 10).flatMap (fun (k : Nat) =>
          [Call.evolve Obj.solver 10 false,
           Call.stamp Obj.grid Obj.state 0 10 (k : Int) (output_directory env.mkdir_status).2]) := by
  rw [main_filter_evolve_or_stamp, snapshot_loop_unfold]

/-- The trace of `main` with every argument evaluated. -/
theorem main_eq (env : Env) :
    main env
      = (if env.HAVE_MPI then [Call.MPI_Init] else [])
        ++ [Call.new_Lattice 640 640 640 (0, 0) 0,
            Call.new_State Obj.grid,
            Call.init_state Obj.state Fn.gauss_state,
            Call.new_Hamiltonian Obj.grid 1 0 0 0 320 320 0,
            Call.initialize_potential Obj.hamiltonian Fn.const_potential,
            Call.new_Solver Obj.grid Obj.state Obj.hamiltonian (2 / 25) "cpu"]
        ++ (if env.mpi_rank = 0 then
              [Call.cout "\n* This source provides an example of the trotter-suzuki program.\n",
               Call.cout "* It calculates the time-evolution of a particle in a box, where the initial\n",
               Call.cout "* state is the following:\n",
               Call.cout "* \texp(-( (x - 180)² + (y - 300)² )/ 2s²)* exp(0.4j * (x + y - 480.))\n\n"]
            else [])
        ++ [Call.mkdir "D640_I10_S10" 509]
        ++ (List.range 10).flatMap (fun (k : Nat) =>
              [Call.evolve Obj.solver 10 false,
               Call.stamp Obj.grid Obj.state 0 10 (k : Int)
                 (if env.mkdir_status ≠ 0 ∧ env.mkdir_status ≠ -1 then "." else "D640_I10_S10")])
        ++ (if env.mpi_coords.1 = 0 ∧ env.mpi_coords.2 = 0 then
              [Call.cout ("TROTTER " ++ toString DIM ++ "x" ++ toString DIM ++ " kernel:"
                ++ KERNEL_TYPE ++ " np:" ++ toString env.mpi_procs ++ "\n")]
            else [])
        ++ [Call.delete Obj.solver, Call.delete Obj.hamiltonian, Call.delete Obj.state,
            Call.delete Obj.grid]
        ++ (if env.HAVE_MPI then [Call.MPI_Finalize] else []) := by
  have hd : ((DIM : Int) : ℚ) = 640 := by norm_num [DIM]
  have ht : (0.08 : ℚ) = 2 / 25 := by norm_num
  unfold main
  simp only [output_directory_eq, snapshot_loop_unfold, hd, ht, and_true]
  rfl

/-- Claim C2.  The function `main` constructs exactly one `Lattice`, with 640 grid points
per side, physical lengths 640 by 640 and both periodicity flags 0, and each of its ten
`evolve` calls passes `imaginary_time = false`. -/
theorem main_lattice_and_mode (env : Env) :
    (main env).filterMap Call.lattice_args = [(640, 640, 640, (0, 0))]
    ∧ (main env).filterMap Call.evolve_imag_time = List.replicate 10 false := by
  rw [main_eq]
  constructor <;>
  · split_ifs <;> simp [List.range_succ, List.flatMap, Call.lattice_args, Call.evolve_imag_time,
      List.replicate]

/-- Claim C7.  The one `Hamiltonian` that `main` constructs has particle mass 1, which is
positive, and coupling constant 0; the calls that construct or use a `Solver` are one
construction with the kernel name `"cpu"` followed by ten `evolve` calls on that solver;
and the rotation frequency passed to the `Lattice` and to the `Hamiltonian` is 0 both
times. -/
theorem main_configuration (env : Env) :
    (main env).filterMap Call.mass_and_coupling = [(1, 0)]
    ∧ (∀ p ∈ (main env).filterMap Call.mass_and_coupling, 0 < p.1 ∧ p.2 = 0)
    ∧ (main env).filter Call.is_solver_call
        = Call.new_Solver Obj.grid Obj.state Obj.hamiltonian (2 / 25) "cpu"
          :: List.replicate 10 (Call.evolve Obj.solver 10 false)
    ∧ (main env).filterMap Call.omega_arg = [0, 0] := by
  have h1 : (main env).filterMap Call.mass_and_coupling = [(1, 0)] := by
    rw [main_eq]
    split_ifs <;> simp [List.range_succ, List.flatMap, Call.mass_and_coupling]
  refine ⟨h1, ?_, ?_, ?_⟩
  · intro p hp
    rw [h1] at hp
    simp at hp
    subst hp
    norm_num
  · rw [main_eq]
    split_ifs <;> simp [List.range_succ, List.flatMap, Call.is_solver_call, List.replicate]
  · rw [main_eq]
    split_ifs <;> simp [List.range_succ, List.flatMap, Call.omega_arg]

/-- Claim C9.  The directory `main` creates is `"D640_I10_S10"`; the output location of all
ten `stamp` calls is `"."` if the status of `mkdir` is neither 0 nor -1 and
`"D640_I10_S10"` otherwise; so with status -1 it is still `"D640_I10_S10"`. -/
theorem main_output_location (env : Env) :
    (main env).filterMap Call.mkdir_path = ["D640_I10_S10"]
    ∧ (main env).filterMap Call.stamp_dirname
        = List.replicate 10
            (if env.mkdir_status ≠ 0 ∧ env.mkdir_status ≠ -1 then "." else "D640_I10_S10")
    ∧ ((output_directory env.mkdir_status).2 = "."
        ↔ (env.mkdir_status ≠ 0 ∧ env.mkdir_status ≠ -1))
    ∧ (main { env with mkdir_status := -1 }).filterMap Call.stamp_dirname
        = List.replicate 10 "D640_I10_S10" := by
  have h2 : ∀ e : Env, (main e).filterMap Call.stamp_dirname
      = List.replicate 10
          (if e.mkdir_status ≠ 0 ∧ e.mkdir_status ≠ -1 then "." else "D640_I10_S10") := by
    intro e
    rw [main_eq]
    split_ifs <;> simp [List.range_succ, List.flatMap, Call.stamp_dirname, List.replicate]
  refine ⟨?_, h2 env, ?_, ?_⟩
  · rw [main_eq]
    split_ifs <;> simp [List.range_succ, List.flatMap, Call.mkdir_path]
  · rw [output_directory_eq]
    by_cases h : env.mkdir_status ≠ 0 ∧ env.mkdir_status ≠ -1
    · simp [h]
    · simp only [h, if_false, iff_false]
      decide
  · rw [h2]
    rfl

/-- Claim C6.  The call `evolve(0, imaginary_time)` leaves the state unchanged, for every
state and either value of `imaginary_time`; the elapsed iterations and the time step are
unchanged as well. -/
theorem evolve_zero {σ : Type} (K : Kernel σ) (S : Solver σ) (imaginary_time : Bool) :
    (Solver.evolve K S 0 imaginary_time).state = S.state
    ∧ (Solver.evolve K S 0 imaginary_time).iterations = S.iterations
    ∧ (Solver.evolve K S 0 imaginary_time).delta_t = S.delta_t := by
  exact ⟨rfl, rfl, rfl⟩

/-- In real time `evolve` iterates the kernel and adds to the count of elapsed
iterations. -/
theorem evolve_real_time {σ : Type} (K : Kernel σ) (S : Solver σ) (n : Nat) :
    Solver.evolve K S n false
      = { state := (fun ψ => K.run ψ false)^[n] S.state, delta_t := S.delta_t,
          iterations := S.iterations + n, imag_time := false } := by
  induction n with
  | zero => rfl
  | succ n ih =>
    rw [Solver.evolve]
    simp only [ih, Solver.step, Function.iterate_succ_apply']
    rfl

/-- Executing a concatenated trace executes its parts in order. -/
theorem exec_append {σ : Type} (K : Kernel σ) (l₁ l₂ : List Call) (w : World σ) :
    exec K (l₁ ++ l₂) w = exec K l₂ (exec K l₁ w) := by
  simp [exec, List.foldl_append]

/-- A conditional segment of calls that leave the world unchanged has no effect. -/
theorem exec_ite_nil {σ : Type} (K : Kernel σ) (c : Prop) [Decidable c] (l : List Call)
    (h : ∀ w : World σ, exec K l w = w) (w : World σ) :
    exec K (if c then l else []) w = w := by
  split_ifs
  · exact h w
  · rfl

/-- One pass of the snapshot loop: ten kernel steps, then `stamp` reads the state. -/
theorem exec_pass {σ : Type} (K : Kernel σ) (w : World σ) (k : Int) (d : String) :
    exec K [Call.evolve Obj.solver 10 false, Call.stamp Obj.grid Obj.state 0 10 k d] w
      = { solver := { state := (fun ψ => K.run ψ false)^[10] w.solver.state,
                      delta_t := w.solver.delta_t,
                      iterations := w.solver.iterations + 10,
                      imag_time := false },
          snapshots := w.snapshots ++
            [(k, (fun ψ => K.run ψ false)^[10] w.solver.state, w.solver.iterations + 10)] } := by
  have h : (10 : Int).toNat = 10 := rfl
  simp only [exec, List.foldl, exec_call, evolve_real_time, h]

/-- The first `n` passes of the snapshot loop on a fresh solver. -/
theorem exec_passes {σ : Type} (K : Kernel σ) (ψ₀ : σ) (d : String) (n : Nat) :
    exec K ((List.range n).flatMap (fun (k : Nat) =>
        [Call.evolve Obj.solver 10 false, Call.stamp Obj.grid Obj.state 0 10 (k : Int) d]))
        { solver := { state := ψ₀, delta_t := 2 / 25, iterations := 0, imag_time := false },
          snapshots := [] }
      = { solver := { state := (fun ψ => K.run ψ false)^[10 * n] ψ₀, delta_t := 2 / 25,
                      iterations := 10 * n, imag_time := false },
          snapshots := (List.range n).map (fun (k : Nat) =>
            ((k : Int), (fun ψ => K.run ψ false)^[10 * (k + 1)] ψ₀, 10 * (k + 1))) } := by
  induction n with
  | zero => rfl
  | succ n ih =>
    have e : 10 * (n + 1) = 10 + 10 * n := by ring
    rw [List.range_succ, List.flatMap_append, exec_append, ih, List.map_append]
    simp only [List.flatMap_cons, List.flatMap_nil, List.append_nil, List.map_cons, List.map_nil]
    rw [exec_pass, ← Function.iterate_add_apply, ← e]
    have e' : 10 * n + 10 = 10 * (n + 1) := by ring
    simp only [e']

/-- Claim C3.  The snapshot loop of `main` makes exactly ten `evolve` calls, each with
`iterations = 10` on the same solver; run on the engine, the kernel is applied 100 times to
the initial state, the count of elapsed iterations is 100 and the elapsed simulated time is
`100 * (2/25) = 8`; and the state read by the `stamp` call number `k` (from 0) is the initial
state after exactly `10 (k + 1)` kernel steps. -/
theorem main_evolution {σ : Type} (env : Env) (K : Kernel σ) (ψ₀ : σ) :
    (main env).filterMap Call.evolve_args = List.replicate 10 (Obj.solver, 10, false)
    ∧ (exec K (main env) (World.init ψ₀)).solver.state = (fun ψ => K.run ψ false)^[100] ψ₀
    ∧ (exec K (main env) (World.init ψ₀)).solver.iterations = 100
    ∧ (exec K (main env) (World.init ψ₀)).solver.elapsed_time = 8
    ∧ (exec K (main env) (World.init ψ₀)).snapshots
        = (List.range 10).map (fun (k : Nat) =>
            ((k : Int), (fun ψ => K.run ψ false)^[10 * (k + 1)] ψ₀, 10 * (k + 1))) := by
  have hw : exec K (main env) (World.init ψ₀)
      = { solver := { state := (fun ψ => K.run ψ false)^[100] ψ₀, delta_t := 2 / 25,
                      iterations := 100, imag_time := false },
          snapshots := (List.range 10).map (fun (k : Nat) =>
            ((k : Int), (fun ψ => K.run ψ false)^[10 * (k + 1)] ψ₀, 10 * (k + 1))) } := by
    rw [main_eq]
    simp only [exec_append]
    rw [exec_ite_nil K _ [Call.MPI_Init] (fun _ => rfl),
      exec_ite_nil K _ [Call.cout _, Call.cout _, Call.cout _, Call.cout _] (fun _ => rfl)]
    have h0 : exec K [Call.mkdir "D640_I10_S10" 509]
        (exec K [Call.new_Lattice 640 640 640 (0, 0) 0,
            Call.new_State Obj.grid,
            Call.init_state Obj.state Fn.gauss_state,
            Call.new_Hamiltonian Obj.grid 1 0 0 0 320 320 0,
            Call.initialize_potential Obj.hamiltonian Fn.const_potential,
            Call.new_Solver Obj.grid Obj.state Obj.hamiltonian (2 / 25) "cpu"] (World.init ψ₀))
        = { solver := { state := ψ₀, delta_t := 2 / 25, iterations := 0, imag_time := false },
            snapshots := [] } := rfl
    rw [h0, exec_passes, exec_ite_nil K _ [Call.cout _] (fun _ => rfl),
      exec_ite_nil K _ [Call.MPI_Finalize] (fun _ => rfl)]
    rfl
  refine ⟨?_, ?_⟩
  · rw [main_eq]
    split_ifs <;> simp [List.range_succ, List.flatMap, Call.evolve_args, List.replicate]
  · rw [hw]
    refine ⟨rfl, rfl, ?_, rfl⟩
    norm_num [Solver.elapsed_time]

/-- Claim C3 with a kernel that counts its own applications, on one process without MPI:
after `main` the count is 100. -/
theorem main_evolution_witness :
    (exec (Kernel.mk (fun n _ => n + 1) id) (main (Env.mk false 0 (0, 0) 1 0))
      (World.init 0)).solver.state = 100 := by
  rw [(main_evolution (Env.mk false 0 (0, 0) 1 0) (Kernel.mk (fun n _ => n + 1) id) 0).2.1]
  rfl

end TrotterSuzuki
